import Mathlib

set_option linter.unusedVariables false

/-! Verification development for the band-constrained Lp-norm (BCLP)
optimization engine of vamtoolbox, file vamtoolbox/backup/BCLP_20221026.py.

Modelling conventions.  Numeric scalars are rationals.  The IEEE power
operator x ** e of numpy (applied with arbitrary rational exponents in the
source) is modelled by an explicit function parameter rpow : Q -> Q -> Q
threaded through the definitions; theorems state exactly the properties of
the real power function they rely on.  Entries of the performance-log
arrays, which the source fills with np.nan as an unset marker, are
modelled as Option Q with none standing for NaN.  A raised Python
exception (AttributeError when the live-plot attribute dp is missing,
IndexError on an out-of-range array access, NaN poisoning of the
previous-loss lookup) is modelled by returning none from an Option-valued
function.  External collaborators (projector, response model, sinogram
filter, the wall clock, the live-plot visualizer) are opaque function
parameters, as the spec directs. -/

namespace BCLP

/-- Python/numpy indexing into a 1-D array: nonnegative indices count from
the front, negative indices from the back, and an out-of-range access is
an IndexError (modelled as none). -/
def pyGet {α : Type} (l : List α) (i : ℤ) : Option α :=
  let idx : ℤ := if 0 ≤ i then i else (l.length : ℤ) + i
  if 0 ≤ idx then l[idx.toNat]? else none

/-- np.sign on rationals. -/
def qsign (x : ℚ) : ℚ := if 0 < x then 1 else if x < 0 then -1 else 0

/-- Elementwise product, numpy star on same-shape arrays. -/
def emul (a b : List ℚ) : List ℚ := List.zipWith (fun x y => x * y) a b

/-- Elementwise difference. -/
def esub (a b : List ℚ) : List ℚ := List.zipWith (fun x y => x - y) a b

/-- A boolean mask promoted to 0/1 values, as numpy does when a boolean
array enters arithmetic. -/
def indMul (v : List Bool) : List ℚ := v.map (fun b => if b then (1:ℚ) else 0)

/-- np.amax of a nonempty array (0 for the empty array, which in numpy
would raise; the optimizer never applies it to an empty array). -/
def amax (l : List ℚ) : ℚ := l.foldl max (l.headD 0)

/-- An n-dimensional numpy array: its shape and its row-major data.
np.reshape preserves the data list and replaces the shape. -/
structure NDArray where
  shape : List ℕ
  data : List ℚ
deriving DecidableEq

/-- The two canonical sinogram forms named by checkSinogramShape. -/
inductive SinogramShape
  | flattened
  | cylindrical
deriving DecidableEq

/-- Scalar times array. -/
def ndSmul (c : ℚ) (g : NDArray) : NDArray := ⟨g.shape, g.data.map (fun x => c * x)⟩

/-- Elementwise array difference (same shape). -/
def ndSub (a b : NDArray) : NDArray := ⟨a.shape, esub a.data b.data⟩

/-- External response model collaborator: forward map, inverse map,
derivative of the forward map, and the domain check, operating on volume
arrays. -/
structure ResponseModel where
  map : List ℚ → List ℚ
  map_inv : List ℚ → List ℚ
  dmapdf : List ℚ → List ℚ
  checkResponseTarget : List ℚ → Bool

/-- External projector collaborator: forward projection takes a volume
array to a sinogram in the projector's native shape, backward projection
takes a sinogram to a volume array. -/
structure Projector where
  forward : List ℚ → NDArray
  backward : NDArray → List ℚ

/-- The verbose option values recognized by the optimizer. -/
inductive Verbose
  | off
  | time
  | plot
deriving DecidableEq

/-- The options object consumed by BCLPNorm.  The field filter stands for
the external sinogram pre-filter: the source stores a filter name and
applies vamtoolbox.util.data.filterSinogram (code not under src/), so the
filter is modelled from the spec as an opaque sinogram transformation. -/
structure Options where
  n_iter : ℕ
  response_model : ResponseModel
  eps : ℚ
  weight : List ℚ
  p : ℚ
  q : ℚ
  learning_rate : ℚ
  optim_alg : String
  blb : ℚ
  bub : ℚ
  bit_depth : Option ℕ
  filter : NDArray → NDArray
  verbose : Verbose

/-- The performance logger LogPerf.  Array entries are Option Q with none
modelling np.nan. -/
structure LogPerf where
  options : Options
  curr_iter : ℕ
  loss : List (Option ℚ)
  l0_v : List (Option ℚ)
  l1_v : List (Option ℚ)
  l2_v : List (Option ℚ)
  lf_v : List (Option ℚ)
  l0_all : List (Option ℚ)
  l1_all : List (Option ℚ)
  l2_all : List (Option ℚ)
  lf_all : List (Option ℚ)
  ver : List (Option ℚ)
  iter_times : List (Option ℚ)
  t0 : Option ℚ

/-- LogPerf construction: the metric arrays are np.zeros(n_iter+1)*np.nan,
giving NaN everywhere; iter_times is np.zeros(n_iter+1), giving zeros; t0
is set to np.nan. -/
def LogPerf.init (options : Options) : LogPerf where
  options := options
  curr_iter := 0
  loss := List.replicate (options.n_iter + 1) none
  l0_v := List.replicate (options.n_iter + 1) none
  l1_v := List.replicate (options.n_iter + 1) none
  l2_v := List.replicate (options.n_iter + 1) none
  lf_v := List.replicate (options.n_iter + 1) none
  l0_all := List.replicate (options.n_iter + 1) none
  l1_all := List.replicate (options.n_iter + 1) none
  l2_all := List.replicate (options.n_iter + 1) none
  lf_all := List.replicate (options.n_iter + 1) none
  ver := List.replicate (options.n_iter + 1) none
  iter_times := List.replicate (options.n_iter + 1) (some 0)
  t0 := none

/-- startTiming records the current clock reading (the clock is an
external collaborator, so the reading is a parameter). -/
def LogPerf.startTiming (l : LogPerf) (now : ℚ) : LogPerf := { l with t0 := some now }

/-- recordIterTime stores elapsed time since t0 into the slot of the
current iteration.  If t0 is NaN the stored difference is NaN. -/
def LogPerf.recordIterTime (l : LogPerf) (now : ℚ) : LogPerf :=
  { l with iter_times := l.iter_times.set l.curr_iter (l.t0.map (fun a => now - a)) }

/-- The BCLPNorm optimizer state: copied option fields, the performance
log, the projector, the recorded native sinogram shape, the five cached
derived quantities and their per-variable iteration stamps, and the
live-plot bookkeeping (hasDP models whether the attribute dp exists;
dp_updates counts pushes to the external visualizer). -/
structure BCLPNorm where
  target : List ℚ
  tomogram_scale : ℚ
  logs : LogPerf
  response_model : ResponseModel
  eps : ℚ
  weight : List ℚ
  p : ℚ
  q : ℚ
  learning_rate : ℚ
  glb : ℚ
  gub : ℚ
  bit_depth : Option ℕ
  dvol : ℚ
  verbose : Verbose
  hasDP : Bool
  dp_updates : ℕ
  P : Projector
  g0 : NDArray
  g0_shape : List ℕ
  dose : List ℚ
  mapped_dose : List ℚ
  mapped_dose_error_from_f_T : List ℚ
  mapped_dose_error_from_band : List ℚ
  v : List Bool
  dose_iter : ℤ
  mapped_dose_iter : ℤ
  mapped_dose_error_from_f_T_iter : ℤ
  mapped_dose_error_from_band_iter : ℤ
  v_iter : ℤ

/-- checkSinogramShape: reshape on demand between the flattened 1-D form
and the native shape recorded at construction. -/
def BCLPNorm.checkSinogramShape (s : BCLPNorm) (g : NDArray)
    (desired : SinogramShape) : NDArray :=
  match desired with
  | .flattened => if g.shape.length > 1 then ⟨[g.shape.prod], g.data⟩ else g
  | .cylindrical => if g.shape.length = 1 then ⟨s.g0_shape, g.data⟩ else g

/-- Modelled from the spec: vamtoolbox.util.data.discretize is not under
src/.  Per the spec, it quantizes the values into n levels spread over the
range from lo to hi: each value is sent to the nearest of the n levels
lo, lo + step, ..., hi with step (hi - lo)/(n - 1). -/
def discretize (data : List ℚ) (n : ℕ) (lo hi : ℚ) : List ℚ :=
  data.map (fun x =>
    let step : ℚ := (hi - lo) / ((n : ℚ) - 1)
    let i : ℕ := min (n - 1) (round ((x - lo) / (hi - lo) * ((n : ℚ) - 1))).toNat
    lo + (i : ℚ) * step)

/-- imposeSinogramConstraints: optional discretization over the range from
the hardcoded 0 to the array maximum, then np.clip into the bounds.
np.clip applies the lower bound first and the upper bound second. -/
def BCLPNorm.imposeSinogramConstraints (s : BCLPNorm) (g : NDArray) : NDArray :=
  let g1 : NDArray :=
    match s.bit_depth with
    | some n => ⟨g.shape, discretize g.data n 0 (amax g.data)⟩
    | none => g
  ⟨g1.shape, g1.data.map (fun x => min s.gub (max s.glb x))⟩

/-- First block of updateVariables: recompute the dose if its stamp is not
the current iteration index. -/
def BCLPNorm.updateDose (s : BCLPNorm) (g_iter : NDArray) : BCLPNorm :=
  if s.dose_iter ≠ (s.logs.curr_iter : ℤ) then
    let g := s.checkSinogramShape g_iter .cylindrical
    { s with dose := (s.P.backward g).map (fun x => x * s.tomogram_scale)
             dose_iter := (s.logs.curr_iter : ℤ) }
  else s

/-- Second block of updateVariables: the mapped dose. -/
def BCLPNorm.updateMappedDose (s : BCLPNorm) : BCLPNorm :=
  if s.mapped_dose_iter ≠ (s.logs.curr_iter : ℤ) then
    { s with mapped_dose := s.response_model.map s.dose
             mapped_dose_iter := (s.logs.curr_iter : ℤ) }
  else s

/-- Third block of updateVariables: the signed error from the target. -/
def BCLPNorm.updateErrT (s : BCLPNorm) : BCLPNorm :=
  if s.mapped_dose_error_from_f_T_iter ≠ (s.logs.curr_iter : ℤ) then
    { s with mapped_dose_error_from_f_T := esub s.mapped_dose s.target
             mapped_dose_error_from_f_T_iter := (s.logs.curr_iter : ℤ) }
  else s

/-- Fourth block of updateVariables: the error from the tolerance band. -/
def BCLPNorm.updateErrB (s : BCLPNorm) : BCLPNorm :=
  if s.mapped_dose_error_from_band_iter ≠ (s.logs.curr_iter : ℤ) then
    { s with mapped_dose_error_from_band :=
               s.mapped_dose_error_from_f_T.map (fun x => |x| - s.eps)
             mapped_dose_error_from_band_iter := (s.logs.curr_iter : ℤ) }
  else s

/-- Fifth block of updateVariables: the violation indicator. -/
def BCLPNorm.updateV (s : BCLPNorm) : BCLPNorm :=
  if s.v_iter ≠ (s.logs.curr_iter : ℤ) then
    { s with v := s.mapped_dose_error_from_band.map (fun x => decide (0 < x))
             v_iter := (s.logs.curr_iter : ℤ) }
  else s

/-- updateVariables: the five dependency-ordered conditional updates. -/
def BCLPNorm.updateVariables (s : BCLPNorm) (g_iter : NDArray) : BCLPNorm :=
  ((((s.updateDose g_iter).updateMappedDose).updateErrT).updateErrB).updateV

/-- computeLoss: refresh the cached chain, form the loss integrand, sum,
scale by the differential volume, raise to the power q/p, and record the
result into the log at the current iteration index. -/
def BCLPNorm.computeLoss (rpow : ℚ → ℚ → ℚ) (s : BCLPNorm) (g_iter : NDArray) :
    BCLPNorm × ℚ :=
  let s1 := s.updateVariables g_iter
  let loss_integrand :=
    emul (emul (indMul s1.v) s1.weight)
      (s1.mapped_dose_error_from_band.map (fun x => rpow x s1.p))
  let loss := rpow (loss_integrand.sum * s1.dvol) (s1.q / s1.p)
  ({ s1 with logs :=
      { s1.logs with loss := s1.logs.loss.set s1.logs.curr_iter (some loss) } },
   loss)

/-- computeLossGradient: refresh the cached chain, form the per-voxel
operand, scale by the outer-power chain-rule factor built from the loss
recorded at the previous iteration index, forward-project, flatten.  A
previous-loss lookup that lands out of range (IndexError) or on an unset
NaN slot (which would poison the whole gradient) is modelled as none. -/
def BCLPNorm.computeLossGradient (rpow : ℚ → ℚ → ℚ) (s : BCLPNorm)
    (g_iter : NDArray) : Option (BCLPNorm × NDArray) :=
  let s1 := s.updateVariables g_iter
  let operand :=
    emul (emul (emul (emul (indMul s1.v) s1.weight)
      (s1.mapped_dose_error_from_band.map (fun x => rpow x (s1.p - 1))))
      (s1.mapped_dose_error_from_f_T.map qsign))
      (s1.response_model.dmapdf s1.dose)
  match pyGet s1.logs.loss ((s1.logs.curr_iter : ℤ) - 1) with
  | some (some prev) =>
    let loss_grad :=
      ndSmul (s1.q * rpow prev ((s1.q - s1.p) / s1.q)) (s1.P.forward operand)
    some (s1, s1.checkSinogramShape loss_grad .flattened)
  | _ => none

/-- callback: record the iteration time, optionally print (a pure side
effect, not modelled), push an update to the external visualizer through
the attribute dp, and advance the iteration index.  The push is
unconditional in the source; when dp does not exist (verbose was not
plot at construction) the attribute access raises AttributeError,
modelled as none. -/
def BCLPNorm.callback (s : BCLPNorm) (g_iter : NDArray) (times : ℕ → ℚ) :
    Option BCLPNorm :=
  let s1 := { s with logs := s.logs.recordIterTime (times s.logs.curr_iter) }
  if s1.hasDP then
    some { s1 with
      dp_updates := s1.dp_updates + 1
      logs := { s1.logs with curr_iter := s1.logs.curr_iter + 1 } }
  else none

/-- BCLPNorm construction: set up the log and start its clock, record
whether the live plot exists, build the sinogram from the target through
the inverse response map and the forward projector, record its native
shape, filter it, impose the sinogram constraints, evaluate the loss of
the result as iteration 0, and run the iteration-0 callback.  The warning
branch for checkResponseTarget is a non-fatal side effect and is not
modelled.  The construction returns none when the callback raises. -/
def BCLPNorm.construct (rpow : ℚ → ℚ → ℚ) (P : Projector) (n_angles : ℕ)
    (target : List ℚ) (options : Options) (times : ℕ → ℚ) (t_start : ℚ) :
    Option BCLPNorm :=
  let logs := (LogPerf.init options).startTiming t_start
  let g0a := P.forward (options.response_model.map_inv target)
  let shape0 := g0a.shape
  let g0b := options.filter g0a
  let s0 : BCLPNorm := {
    target := target
    tomogram_scale := 1 / (n_angles : ℚ)
    logs := logs
    response_model := options.response_model
    eps := options.eps
    weight := options.weight
    p := options.p
    q := options.q
    learning_rate := options.learning_rate
    glb := options.blb
    gub := options.bub
    bit_depth := options.bit_depth
    dvol := 1
    verbose := options.verbose
    hasDP := options.verbose = Verbose.plot
    dp_updates := 0
    P := P
    g0 := g0b
    g0_shape := shape0
    dose := []
    mapped_dose := []
    mapped_dose_error_from_f_T := []
    mapped_dose_error_from_band := []
    v := []
    dose_iter := -1
    mapped_dose_iter := -1
    mapped_dose_error_from_f_T_iter := -1
    mapped_dose_error_from_band_iter := -1
    v_iter := -1 }
  let g0c := s0.imposeSinogramConstraints g0b
  let s1 := { s0 with g0 := g0c }
  let s2 := (s1.computeLoss rpow s1.g0).1
  s2.callback s2.g0 times

/-- One pass of the gradient-descent loop body: gradient at the current
sinogram, descent step, constraint projection, loss evaluation, callback. -/
def gradientDescentStep (rpow : ℚ → ℚ → ℚ) (times : ℕ → ℚ) :
    BCLPNorm × NDArray → Option (BCLPNorm × NDArray)
  | (s, g) =>
    match s.computeLossGradient rpow g with
    | none => none
    | some (s1, grad) =>
      let g1 := ndSub g (ndSmul s1.learning_rate grad)
      let g2 := s1.imposeSinogramConstraints g1
      let s2 := (s1.computeLoss rpow g2).1
      (s2.callback g2 times).map (fun s3 => (s3, g2))

/-- The for-loop over range(n_iter), as a recursion on the remaining
iteration count. -/
def gradientDescentLoop (rpow : ℚ → ℚ → ℚ) (times : ℕ → ℚ) :
    ℕ → BCLPNorm × NDArray → Option (BCLPNorm × NDArray)
  | 0, sg => some sg
  | Nat.succ n, sg =>
    match gradientDescentStep rpow times sg with
    | none => none
    | some sg2 => gradientDescentLoop rpow times n sg2

/-- gradientDescent: flatten the stored initial sinogram and run the loop
for n_iter iterations, returning the final state and final sinogram. -/
def BCLPNorm.gradientDescent (rpow : ℚ → ℚ → ℚ) (times : ℕ → ℚ)
    (s : BCLPNorm) : Option (BCLPNorm × NDArray) :=
  gradientDescentLoop rpow times s.logs.options.n_iter
    (s, s.checkSinogramShape s.g0 .flattened)

/-- minimizeBCLP: construct the optimizer, run gradient descent, pass the
result through checkSinogramShape with its default desired shape (the
source omits the argument, so the default flattened is used), and return
the sinogram, the cached dose, and the log. -/
def minimizeBCLP (rpow : ℚ → ℚ → ℚ) (P : Projector) (n_angles : ℕ)
    (target : List ℚ) (options : Options) (times : ℕ → ℚ) (t_start : ℚ) :
    Option (NDArray × List ℚ × LogPerf) :=
  match BCLPNorm.construct rpow P n_angles target options times t_start with
  | none => none
  | some bclp =>
    match bclp.gradientDescent rpow times with
    | none => none
    | some (b2, g_opt) =>
      let g2 := b2.checkSinogramShape g_opt .flattened
      some (g2, b2.dose, b2.logs)

/-- Flattening of an array independent of any optimizer state: exactly
the flattened branch of checkSinogramShape. -/
def flattenArr (g : NDArray) : NDArray :=
  if g.shape.length > 1 then ⟨[g.shape.prod], g.data⟩ else g

/-- Spec-side dose of a sinogram: back-projection scaled by the tomogram
scale, reading only configuration fields of the state, never its cache. -/
def specDose (s : BCLPNorm) (g : NDArray) : List ℚ :=
  (s.P.backward (s.checkSinogramShape g .cylindrical)).map
    (fun x => x * s.tomogram_scale)

/-- Spec-side loss of a sinogram, the direct chain of the claims: dose,
mapped dose, signed error, band error, violation indicator, then the
weighted p-power sum raised to the power q over p. -/
def specLoss (rpow : ℚ → ℚ → ℚ) (s : BCLPNorm) (g : NDArray) : ℚ :=
  let d := specDose s g
  let m := s.response_model.map d
  let eT := esub m s.target
  let eB := eT.map (fun x => |x| - s.eps)
  let viol := eB.map (fun x => decide (0 < x))
  let integrand := emul (emul (indMul viol) s.weight) (eB.map (fun x => rpow x s.p))
  rpow (integrand.sum * s.dvol) (s.q / s.p)

/-- Spec-side gradient of the claims: the forward projection of the
per-voxel operand built from the direct chain of the sinogram, scaled by
the outer-power factor of the previous loss, flattened. -/
def specGradient (rpow : ℚ → ℚ → ℚ) (s : BCLPNorm) (g : NDArray) (prev : ℚ) :
    NDArray :=
  let d := specDose s g
  let m := s.response_model.map d
  let eT := esub m s.target
  let eB := eT.map (fun x => |x| - s.eps)
  let viol := eB.map (fun x => decide (0 < x))
  let operand :=
    emul (emul (emul (emul (indMul viol) s.weight)
      (eB.map (fun x => rpow x (s.p - 1))))
      (eT.map qsign))
      (s.response_model.dmapdf d)
  flattenArr (ndSmul (s.q * rpow prev ((s.q - s.p) / s.q)) (s.P.forward operand))

/-- The loop invariant of a live-plot run: after the k-th completed
callback the iteration index is k+1, the live plot exists, the loss array
keeps its allocated length, and every slot up to index k holds a recorded
value. -/
def Inv (n k : ℕ) (s : BCLPNorm) : Prop :=
  s.logs.curr_iter = k + 1 ∧ s.hasDP = true ∧ s.logs.options.n_iter = n ∧
  s.logs.loss.length = n + 1 ∧ ∀ j, j ≤ k → ∃ x, s.logs.loss[j]? = some (some x)

/-- A concrete power model for closed-run evaluation: with p = q = 1 the
only exponents reached are 0 and 1, on which every real power model
agrees with this function. -/
def crpow : ℚ → ℚ → ℚ := fun x e => if e = 0 then 1 else x

/-- A concrete response model: the identity map with unit derivative. -/
def crm : ResponseModel where
  map := fun l => l
  map_inv := fun l => l
  dmapdf := fun l => l.map (fun _ => 1)
  checkResponseTarget := fun _ => true

/-- A concrete projector over a one-voxel volume and a one-element
sinogram of native shape [1, 1], with a single angle. -/
def cP : Projector where
  forward := fun v2 => ⟨[1, 1], v2⟩
  backward := fun g => g.data

/-- A concrete sinogram pre-filter that halves the exposure, so that the
initial sinogram no longer reproduces the target exactly and the gradient
of the first iteration is nonzero. -/
def cFilter : NDArray → NDArray := fun g => ⟨g.shape, g.data.map (fun x => x / 2)⟩

/-- Concrete options: one iteration, p = q = 1, zero band half-width,
unit weight, learning rate one half, bounds 0 and 10, live plot on. -/
def copts : Options where
  n_iter := 1
  response_model := crm
  eps := 0
  weight := [1]
  p := 1
  q := 1
  learning_rate := 1/2
  optim_alg := "gradient_descent"
  blb := 0
  bub := 10
  bit_depth := none
  filter := cFilter
  verbose := Verbose.plot

/-- A concrete clock that always reads zero. -/
def ctimes : ℕ → ℚ := fun _ => 0

/-- The concrete end-to-end run: target dose 2 on the single voxel. -/
def cRun : Option (NDArray × List ℚ × LogPerf) :=
  minimizeBCLP crpow cP 1 [2] copts ctimes 0

/-- The concrete optimizer construction underlying cRun, used to read the
configuration (native shape, projector, response model) the run used. -/
def cConstruct : Option BCLPNorm :=
  BCLPNorm.construct crpow cP 1 [2] copts ctimes 0

/-- A concrete optimizer state matching the configuration of cRun right
after construction, with all cache stamps still at their unset value -1
and the iteration index at 0. -/
def cState : BCLPNorm where
  target := [2]
  tomogram_scale := 1
  logs := (LogPerf.init copts).startTiming 0
  response_model := crm
  eps := 0
  weight := [1]
  p := 1
  q := 1
  learning_rate := 1/2
  glb := 0
  gub := 10
  bit_depth := none
  dvol := 1
  verbose := Verbose.plot
  hasDP := true
  dp_updates := 0
  P := cP
  g0 := ⟨[1, 1], [1]⟩
  g0_shape := [1, 1]
  dose := []
  mapped_dose := []
  mapped_dose_error_from_f_T := []
  mapped_dose_error_from_band := []
  v := []
  dose_iter := -1
  mapped_dose_iter := -1
  mapped_dose_error_from_f_T_iter := -1
  mapped_dose_error_from_band_iter := -1
  v_iter := -1

/-- A concrete state as seen at the start of the first loop iteration:
iteration index 1, all cache stamps at 0, loss slot 0 recorded. -/
def cState7 : BCLPNorm :=
  { cState with
      logs := { cState.logs with curr_iter := 1, loss := [some 1, none] }
      dose_iter := 0
      mapped_dose_iter := 0
      mapped_dose_error_from_f_T_iter := 0
      mapped_dose_error_from_band_iter := 0
      v_iter := 0 }

/-- A concrete state with two-level discretization switched on. -/
def cState6 : BCLPNorm := { cState with bit_depth := some 2 }

/-- Options identical to copts except that the live plot is off and the
iteration budget is 2: a valid configuration per the options surface. -/
def coptsOff2 : Options := { copts with verbose := Verbose.off, n_iter := 2 }


/-- The performance log as it stands right after construction of the
concrete run: iteration 0 recorded, iteration index advanced to 1. -/
def cLogs1 : LogPerf where
  options := copts
  curr_iter := 1
  loss := [some 1, none]
  l0_v := [none, none]
  l1_v := [none, none]
  l2_v := [none, none]
  lf_v := [none, none]
  l0_all := [none, none]
  l1_all := [none, none]
  l2_all := [none, none]
  lf_all := [none, none]
  ver := [none, none]
  iter_times := [some 0, some 0]
  t0 := some 0

/-- The optimizer state of the concrete run right after construction. -/
def cS1 : BCLPNorm where
  target := [2]
  tomogram_scale := 1
  logs := cLogs1
  response_model := crm
  eps := 0
  weight := [1]
  p := 1
  q := 1
  learning_rate := 1/2
  glb := 0
  gub := 10
  bit_depth := none
  dvol := 1
  verbose := Verbose.plot
  hasDP := true
  dp_updates := 1
  P := cP
  g0 := ⟨[1, 1], [1]⟩
  g0_shape := [1, 1]
  dose := [1]
  mapped_dose := [1]
  mapped_dose_error_from_f_T := [-1]
  mapped_dose_error_from_band := [1]
  v := [true]
  dose_iter := 0
  mapped_dose_iter := 0
  mapped_dose_error_from_f_T_iter := 0
  mapped_dose_error_from_band_iter := 0
  v_iter := 0

/-- The optimizer state of the concrete run after its single loop
iteration: note the cached chain still holds the values of the pre-step
sinogram with data 1, recomputed by the gradient call, while the loss
slot of iteration 1 was filled from that same stale chain. -/
def cS2 : BCLPNorm :=
  { cS1 with
      logs := { cLogs1 with curr_iter := 2, loss := [some 1, some 1] }
      dp_updates := 2
      dose_iter := 1
      mapped_dose_iter := 1
      mapped_dose_error_from_f_T_iter := 1
      mapped_dose_error_from_band_iter := 1
      v_iter := 1 }

theorem updateDose_logs (s : BCLPNorm) (g : NDArray) : (s.updateDose g).logs = s.logs := by
  unfold BCLPNorm.updateDose; split <;> rfl

theorem updateMappedDose_logs (s : BCLPNorm) : s.updateMappedDose.logs = s.logs := by
  unfold BCLPNorm.updateMappedDose; split <;> rfl

theorem updateErrT_logs (s : BCLPNorm) : s.updateErrT.logs = s.logs := by
  unfold BCLPNorm.updateErrT; split <;> rfl

theorem updateErrB_logs (s : BCLPNorm) : s.updateErrB.logs = s.logs := by
  unfold BCLPNorm.updateErrB; split <;> rfl

theorem updateV_logs (s : BCLPNorm) : s.updateV.logs = s.logs := by
  unfold BCLPNorm.updateV; split <;> rfl

theorem updateVariables_logs (s : BCLPNorm) (g : NDArray) :
    (s.updateVariables g).logs = s.logs := by
  unfold BCLPNorm.updateVariables
  rw [updateV_logs, updateErrB_logs, updateErrT_logs, updateMappedDose_logs,
    updateDose_logs]

theorem updateDose_hasDP (s : BCLPNorm) (g : NDArray) :
    (s.updateDose g).hasDP = s.hasDP := by
  unfold BCLPNorm.updateDose; split <;> rfl

theorem updateMappedDose_hasDP (s : BCLPNorm) : s.updateMappedDose.hasDP = s.hasDP := by
  unfold BCLPNorm.updateMappedDose; split <;> rfl

theorem updateErrT_hasDP (s : BCLPNorm) : s.updateErrT.hasDP = s.hasDP := by
  unfold BCLPNorm.updateErrT; split <;> rfl

theorem updateErrB_hasDP (s : BCLPNorm) : s.updateErrB.hasDP = s.hasDP := by
  unfold BCLPNorm.updateErrB; split <;> rfl

theorem updateV_hasDP (s : BCLPNorm) : s.updateV.hasDP = s.hasDP := by
  unfold BCLPNorm.updateV; split <;> rfl

theorem updateVariables_hasDP (s : BCLPNorm) (g : NDArray) :
    (s.updateVariables g).hasDP = s.hasDP := by
  unfold BCLPNorm.updateVariables
  rw [updateV_hasDP, updateErrB_hasDP, updateErrT_hasDP, updateMappedDose_hasDP,
    updateDose_hasDP]

theorem computeLoss_logs (rpow : ℚ → ℚ → ℚ) (s : BCLPNorm) (g : NDArray) :
    (s.computeLoss rpow g).1.logs =
      { s.logs with
          loss := s.logs.loss.set s.logs.curr_iter (some (s.computeLoss rpow g).2) } := by
  unfold BCLPNorm.computeLoss
  simp only [updateVariables_logs]

theorem computeLoss_hasDP (rpow : ℚ → ℚ → ℚ) (s : BCLPNorm) (g : NDArray) :
    (s.computeLoss rpow g).1.hasDP = s.hasDP := by
  unfold BCLPNorm.computeLoss
  simp only [updateVariables_hasDP]

theorem updateVariables_stale (s : BCLPNorm) (g : NDArray)
    (h1 : s.dose_iter ≠ (s.logs.curr_iter : ℤ))
    (h2 : s.mapped_dose_iter ≠ (s.logs.curr_iter : ℤ))
    (h3 : s.mapped_dose_error_from_f_T_iter ≠ (s.logs.curr_iter : ℤ))
    (h4 : s.mapped_dose_error_from_band_iter ≠ (s.logs.curr_iter : ℤ))
    (h5 : s.v_iter ≠ (s.logs.curr_iter : ℤ)) :
    s.updateVariables g = { s with
      dose := specDose s g
      mapped_dose := s.response_model.map (specDose s g)
      mapped_dose_error_from_f_T := esub (s.response_model.map (specDose s g)) s.target
      mapped_dose_error_from_band :=
        (esub (s.response_model.map (specDose s g)) s.target).map (fun x => |x| - s.eps)
      v := ((esub (s.response_model.map (specDose s g)) s.target).map
        (fun x => |x| - s.eps)).map (fun x => decide (0 < x))
      dose_iter := (s.logs.curr_iter : ℤ)
      mapped_dose_iter := (s.logs.curr_iter : ℤ)
      mapped_dose_error_from_f_T_iter := (s.logs.curr_iter : ℤ)
      mapped_dose_error_from_band_iter := (s.logs.curr_iter : ℤ)
      v_iter := (s.logs.curr_iter : ℤ) } := by
  unfold BCLPNorm.updateVariables BCLPNorm.updateDose BCLPNorm.updateMappedDose
    BCLPNorm.updateErrT BCLPNorm.updateErrB BCLPNorm.updateV
  simp [h1, h2, h3, h4, h5, specDose]

theorem computeLoss_stale_eq_specLoss (rpow : ℚ → ℚ → ℚ) (s : BCLPNorm) (g : NDArray)
    (h1 : s.dose_iter ≠ (s.logs.curr_iter : ℤ))
    (h2 : s.mapped_dose_iter ≠ (s.logs.curr_iter : ℤ))
    (h3 : s.mapped_dose_error_from_f_T_iter ≠ (s.logs.curr_iter : ℤ))
    (h4 : s.mapped_dose_error_from_band_iter ≠ (s.logs.curr_iter : ℤ))
    (h5 : s.v_iter ≠ (s.logs.curr_iter : ℤ)) :
    (s.computeLoss rpow g).2 = specLoss rpow s g := by
  unfold BCLPNorm.computeLoss specLoss
  rw [updateVariables_stale s g h1 h2 h3 h4 h5]

theorem checkSinogramShape_flattened_eq (s : BCLPNorm) (g : NDArray) :
    s.checkSinogramShape g .flattened = flattenArr g := by
  unfold BCLPNorm.checkSinogramShape flattenArr
  rfl

/-- C7: for every sinogram g presented with stale cache stamps (the state
of every actual gradient call: the stamps carry the previous iteration
index after the callback advanced the counter), computeLossGradient
returns, in flattened form, the forward projection of the per-voxel
operand violationIndicator * weight * errorFromBand^(p-1) *
sign(errorFromTarget) * dmapdf(dose) of g, scaled by
q * previousLoss^((q-p)/q), where previousLoss is the value recorded in
the log at index currentIteration - 1. -/
theorem computeLossGradient_formula (rpow : ℚ → ℚ → ℚ) (s : BCLPNorm) (g : NDArray)
    (prev : ℚ)
    (h1 : s.dose_iter ≠ (s.logs.curr_iter : ℤ))
    (h2 : s.mapped_dose_iter ≠ (s.logs.curr_iter : ℤ))
    (h3 : s.mapped_dose_error_from_f_T_iter ≠ (s.logs.curr_iter : ℤ))
    (h4 : s.mapped_dose_error_from_band_iter ≠ (s.logs.curr_iter : ℤ))
    (h5 : s.v_iter ≠ (s.logs.curr_iter : ℤ))
    (hprev : pyGet s.logs.loss ((s.logs.curr_iter : ℤ) - 1) = some (some prev)) :
    s.computeLossGradient rpow g =
      some (s.updateVariables g, specGradient rpow s g prev) := by
  unfold BCLPNorm.computeLossGradient specGradient
  rw [updateVariables_stale s g h1 h2 h3 h4 h5]
  simp only [hprev]
  rw [checkSinogramShape_flattened_eq]

/-- C7 witness: the formula theorem applied to the concrete state at the
start of the first loop iteration of the concrete run. -/
theorem computeLossGradient_formula_witness :
    cState7.computeLossGradient crpow ⟨[1], [1]⟩ =
      some (cState7.updateVariables ⟨[1], [1]⟩,
        specGradient crpow cState7 ⟨[1], [1]⟩ 1) :=
  computeLossGradient_formula crpow cState7 ⟨[1], [1]⟩ 1 (by decide) (by decide)
    (by decide) (by decide) (by decide) (by decide)

theorem integrand_nonneg (rpow : ℚ → ℚ → ℚ) (p : ℚ) (w eB : List ℚ)
    (hw : ∀ x ∈ w, 0 ≤ x) (hrpow : ∀ x e, 0 ≤ x → 0 ≤ rpow x e) :
    ∀ y ∈ emul (emul (indMul (eB.map (fun x => decide (0 < x)))) w)
      (eB.map (fun x => rpow x p)), 0 ≤ y := by
  induction eB generalizing w with
  | nil => simp [emul, indMul]
  | cons b tb ih =>
    cases w with
    | nil => simp [emul, indMul]
    | cons c tc =>
      intro y hy
      simp only [List.map_cons, indMul, emul, List.zipWith_cons_cons,
        List.mem_cons] at hy
      rcases hy with h | h
      · subst h
        by_cases hb : 0 < b
        · have hc : 0 ≤ c := hw c (List.mem_cons_self c tc)
          have hr := hrpow b p (le_of_lt hb)
          have he : (if decide (0 < b) = true then (1:ℚ) else 0) = 1 := by simp [hb]
          rw [he, one_mul]
          exact mul_nonneg hc hr
        · have he : (if decide (0 < b) = true then (1:ℚ) else 0) = 0 := by simp [hb]
          rw [he, zero_mul, zero_mul]
      · exact ih tc (fun x hx => hw x (List.mem_cons_of_mem c hx)) y h

/-- C9: for every sinogram presented with stale cache stamps (a fresh
evaluation of that sinogram), nonnegative per-voxel weights, nonnegative
differential volume, positive exponents p and q, and a power model that
sends nonnegative bases to nonnegative values (a property of the real
power function), computeLoss returns a value greater than or equal to 0:
the integrand is gated by the violation indicator so every summand is
nonnegative, and the outer power of the nonnegative sum is nonnegative. -/
theorem computeLoss_nonneg (rpow : ℚ → ℚ → ℚ) (s : BCLPNorm) (g : NDArray)
    (h1 : s.dose_iter ≠ (s.logs.curr_iter : ℤ))
    (h2 : s.mapped_dose_iter ≠ (s.logs.curr_iter : ℤ))
    (h3 : s.mapped_dose_error_from_f_T_iter ≠ (s.logs.curr_iter : ℤ))
    (h4 : s.mapped_dose_error_from_band_iter ≠ (s.logs.curr_iter : ℤ))
    (h5 : s.v_iter ≠ (s.logs.curr_iter : ℤ))
    (hw : ∀ x ∈ s.weight, 0 ≤ x) (hdvol : 0 ≤ s.dvol)
    (hp : 0 < s.p) (hq : 0 < s.q)
    (hrpow : ∀ x e, 0 ≤ x → 0 ≤ rpow x e) :
    0 ≤ (s.computeLoss rpow g).2 := by
  rw [computeLoss_stale_eq_specLoss rpow s g h1 h2 h3 h4 h5]
  unfold specLoss
  apply hrpow
  apply mul_nonneg _ hdvol
  apply List.sum_nonneg
  exact integrand_nonneg rpow s.p s.weight _ hw hrpow

/-- C9 witness: the non-negativity theorem applied to a concrete state, a
concrete sinogram, and the power model that returns its base unchanged. -/
theorem computeLoss_nonneg_witness :
    0 ≤ (cState.computeLoss (fun x _ => x) ⟨[1], [1]⟩).2 :=
  computeLoss_nonneg (fun x _ => x) cState ⟨[1], [1]⟩ (by decide) (by decide)
    (by decide) (by decide) (by decide) (by decide) (by decide) (by decide)
    (by decide) (fun x e h => h)

theorem discretize_dedup_le (data : List ℚ) (n : ℕ) (lo hi : ℚ) (hn : 0 < n) :
    (discretize data n lo hi).dedup.length ≤ n := by
  classical
  have hmem : ∀ y ∈ discretize data n lo hi,
      ∃ i < n, y = lo + (i : ℚ) * ((hi - lo) / ((n : ℚ) - 1)) := by
    intro y hy
    unfold discretize at hy
    rcases List.mem_map.mp hy with ⟨x, hx, rfl⟩
    refine ⟨_, ?_, rfl⟩
    exact Nat.lt_of_le_of_lt (min_le_left _ _) (Nat.sub_lt hn Nat.one_pos)
  have h1 : (discretize data n lo hi).dedup.toFinset ⊆
      (Finset.range n).image (fun i : ℕ => lo + (i : ℚ) * ((hi - lo) / ((n : ℚ) - 1))) := by
    intro y hy
    rw [List.mem_toFinset, List.mem_dedup] at hy
    obtain ⟨i, hin, rfl⟩ := hmem y hy
    exact Finset.mem_image.mpr ⟨i, Finset.mem_range.mpr hin, rfl⟩
  calc (discretize data n lo hi).dedup.length
      = (discretize data n lo hi).dedup.toFinset.card :=
        (List.toFinset_card_of_nodup (List.nodup_dedup _)).symm
    _ ≤ ((Finset.range n).image
          (fun i : ℕ => lo + (i : ℚ) * ((hi - lo) / ((n : ℚ) - 1)))).card :=
        Finset.card_le_card h1
    _ ≤ (Finset.range n).card := Finset.card_image_le
    _ = n := Finset.card_range n

/-- C6: for bounds blb at most bub, imposeSinogramConstraints returns an
array of the same shape and size whose every element lies between blb and
bub; when bit_depth is configured with a positive level count, the result
is the clamp of the discretization of the data into bit_depth levels over
the range from the hardcoded 0 to the array maximum, and that pre-clamp
discretization takes at most bit_depth distinct values. -/
theorem imposeSinogramConstraints_spec (s : BCLPNorm) (g : NDArray)
    (hb : s.glb ≤ s.gub) :
    (s.imposeSinogramConstraints g).shape = g.shape ∧
    (s.imposeSinogramConstraints g).data.length = g.data.length ∧
    (∀ x ∈ (s.imposeSinogramConstraints g).data, s.glb ≤ x ∧ x ≤ s.gub) ∧
    (∀ n, s.bit_depth = some n → 0 < n →
      (s.imposeSinogramConstraints g).data =
        (discretize g.data n 0 (amax g.data)).map (fun x => min s.gub (max s.glb x)) ∧
      (discretize g.data n 0 (amax g.data)).dedup.length ≤ n) := by
  have hclamp : ∀ y : ℚ, s.glb ≤ min s.gub (max s.glb y) ∧ min s.gub (max s.glb y) ≤ s.gub :=
    fun y => ⟨le_min hb (le_max_left _ _), min_le_left _ _⟩
  cases hbd : s.bit_depth with
  | none =>
    refine ⟨by simp [BCLPNorm.imposeSinogramConstraints, hbd], ?_, ?_, ?_⟩
    · simp [BCLPNorm.imposeSinogramConstraints, hbd]
    · intro x hx
      simp only [BCLPNorm.imposeSinogramConstraints, hbd, List.mem_map] at hx
      obtain ⟨y, hy, rfl⟩ := hx
      exact hclamp y
    · intro n hsome
      exact absurd hsome (by simp)
  | some m =>
    refine ⟨by simp [BCLPNorm.imposeSinogramConstraints, hbd], ?_, ?_, ?_⟩
    · simp [BCLPNorm.imposeSinogramConstraints, hbd, discretize]
    · intro x hx
      simp only [BCLPNorm.imposeSinogramConstraints, hbd, List.mem_map] at hx
      obtain ⟨y, hy, rfl⟩ := hx
      exact hclamp y
    · intro n hsome hnpos
      obtain rfl : m = n := by injection hsome
      exact ⟨by simp [BCLPNorm.imposeSinogramConstraints, hbd],
        discretize_dedup_le g.data m 0 (amax g.data) hnpos⟩

/-- C6 witness: the constraint-projection theorem applied to a concrete
state with two-level discretization and a five-element sinogram. -/
theorem imposeSinogramConstraints_spec_witness :
    (cState6.imposeSinogramConstraints ⟨[5], [0, 1/3, 1/2, 3/4, 1]⟩).shape = [5] ∧
    (cState6.imposeSinogramConstraints ⟨[5], [0, 1/3, 1/2, 3/4, 1]⟩).data.length = 5 ∧
    (∀ x ∈ (cState6.imposeSinogramConstraints ⟨[5], [0, 1/3, 1/2, 3/4, 1]⟩).data,
      cState6.glb ≤ x ∧ x ≤ cState6.gub) ∧
    (∀ n, cState6.bit_depth = some n → 0 < n →
      (cState6.imposeSinogramConstraints ⟨[5], [0, 1/3, 1/2, 3/4, 1]⟩).data =
        (discretize [0, 1/3, 1/2, 3/4, 1] n 0 (amax [0, 1/3, 1/2, 3/4, 1])).map
          (fun x => min cState6.gub (max cState6.glb x)) ∧
      (discretize [0, 1/3, 1/2, 3/4, 1] n 0 (amax [0, 1/3, 1/2, 3/4, 1])).dedup.length ≤ n) :=
  imposeSinogramConstraints_spec cState6 ⟨[5], [0, 1/3, 1/2, 3/4, 1]⟩ (by decide)


set_option maxHeartbeats 1000000 in
theorem cConstruct_eval : cConstruct = some cS1 := by
  norm_num [cConstruct, BCLPNorm.construct, BCLPNorm.computeLoss,
    BCLPNorm.updateVariables, BCLPNorm.updateDose, BCLPNorm.updateMappedDose,
    BCLPNorm.updateErrT, BCLPNorm.updateErrB, BCLPNorm.updateV,
    BCLPNorm.callback, BCLPNorm.imposeSinogramConstraints,
    BCLPNorm.checkSinogramShape, LogPerf.init, LogPerf.startTiming,
    LogPerf.recordIterTime, copts, crm, cP, cFilter, crpow, ctimes,
    qsign, emul, esub, indMul, amax, ndSmul, ndSub, discretize,
    cLogs1, cS1, List.replicate]

set_option maxHeartbeats 1000000 in
theorem cStep_eval :
    gradientDescentStep crpow ctimes (cS1, ⟨[1], [1]⟩) = some (cS2, ⟨[1], [3/2]⟩) := by
  norm_num [gradientDescentStep, BCLPNorm.computeLoss, BCLPNorm.computeLossGradient,
    BCLPNorm.updateVariables, BCLPNorm.updateDose, BCLPNorm.updateMappedDose,
    BCLPNorm.updateErrT, BCLPNorm.updateErrB, BCLPNorm.updateV,
    BCLPNorm.callback, BCLPNorm.imposeSinogramConstraints,
    BCLPNorm.checkSinogramShape, LogPerf.recordIterTime, copts, crm, cP, cFilter,
    crpow, ctimes, pyGet, qsign, emul, esub, indMul, amax, ndSmul, ndSub,
    discretize, cLogs1, cS1, cS2]

set_option maxHeartbeats 1000000 in
theorem cRun_eval : cRun = some (⟨[1], [3/2]⟩, [1], cS2.logs) := by
  have h1 : cRun = match cConstruct with
    | none => none
    | some bclp =>
      match bclp.gradientDescent crpow ctimes with
      | none => none
      | some (b2, g_opt) =>
        some (b2.checkSinogramShape g_opt .flattened, b2.dose, b2.logs) := rfl
  rw [h1, cConstruct_eval]
  show (match cS1.gradientDescent crpow ctimes with
    | none => none
    | some (b2, g_opt) =>
      some (b2.checkSinogramShape g_opt .flattened, b2.dose, b2.logs)) = _
  have h2 : cS1.gradientDescent crpow ctimes = some (cS2, ⟨[1], [3/2]⟩) := by
    have hn : cS1.logs.options.n_iter = 1 := rfl
    unfold BCLPNorm.gradientDescent
    rw [hn]
    have hg : cS1.checkSinogramShape cS1.g0 .flattened = (⟨[1], [1]⟩ : NDArray) := by
      norm_num [BCLPNorm.checkSinogramShape, cS1]
    rw [hg]
    show (match gradientDescentStep crpow ctimes (cS1, ⟨[1], [1]⟩) with
      | none => none
      | some sg2 => gradientDescentLoop crpow ctimes 0 sg2) = _
    rw [cStep_eval]
    rfl
  rw [h2]
  norm_num [BCLPNorm.checkSinogramShape, cS2, cS1]

set_option maxHeartbeats 1000000 in
theorem cConstructOff_eval :
    BCLPNorm.construct crpow cP 1 [2] { copts with verbose := Verbose.off } ctimes 0
      = none := by
  norm_num [BCLPNorm.construct, BCLPNorm.computeLoss,
    BCLPNorm.updateVariables, BCLPNorm.updateDose, BCLPNorm.updateMappedDose,
    BCLPNorm.updateErrT, BCLPNorm.updateErrB, BCLPNorm.updateV,
    BCLPNorm.callback, BCLPNorm.imposeSinogramConstraints,
    BCLPNorm.checkSinogramShape, LogPerf.init, LogPerf.startTiming,
    LogPerf.recordIterTime, copts, crm, cP, cFilter, crpow, ctimes,
    qsign, emul, esub, indMul, amax, ndSmul, ndSub, discretize, List.replicate]
  exact fun h => nomatch h

theorem cRunOff_eval :
    minimizeBCLP crpow cP 1 [2] { copts with verbose := Verbose.off } ctimes 0 = none := by
  have h1 : minimizeBCLP crpow cP 1 [2] { copts with verbose := Verbose.off } ctimes 0 =
    match BCLPNorm.construct crpow cP 1 [2] { copts with verbose := Verbose.off } ctimes 0 with
    | none => none
    | some bclp =>
      match bclp.gradientDescent crpow ctimes with
      | none => none
      | some (b2, g_opt) =>
        some (b2.checkSinogramShape g_opt .flattened, b2.dose, b2.logs) := rfl
  rw [h1, cConstructOff_eval]

set_option maxHeartbeats 1000000 in
theorem cConstructTime_eval :
    BCLPNorm.construct crpow cP 1 [2] { copts with verbose := Verbose.time } ctimes 0
      = none := by
  norm_num [BCLPNorm.construct, BCLPNorm.computeLoss,
    BCLPNorm.updateVariables, BCLPNorm.updateDose, BCLPNorm.updateMappedDose,
    BCLPNorm.updateErrT, BCLPNorm.updateErrB, BCLPNorm.updateV,
    BCLPNorm.callback, BCLPNorm.imposeSinogramConstraints,
    BCLPNorm.checkSinogramShape, LogPerf.init, LogPerf.startTiming,
    LogPerf.recordIterTime, copts, crm, cP, cFilter, crpow, ctimes,
    qsign, emul, esub, indMul, amax, ndSmul, ndSub, discretize, List.replicate]
  exact fun h => nomatch h

theorem cRunTime_eval :
    minimizeBCLP crpow cP 1 [2] { copts with verbose := Verbose.time } ctimes 0 = none := by
  have h1 : minimizeBCLP crpow cP 1 [2] { copts with verbose := Verbose.time } ctimes 0 =
    match BCLPNorm.construct crpow cP 1 [2] { copts with verbose := Verbose.time } ctimes 0 with
    | none => none
    | some bclp =>
      match bclp.gradientDescent crpow ctimes with
      | none => none
      | some (b2, g_opt) =>
        some (b2.checkSinogramShape g_opt .flattened, b2.dose, b2.logs) := rfl
  rw [h1, cConstructTime_eval]

set_option maxHeartbeats 1000000 in
theorem cConstructOff2_eval :
    BCLPNorm.construct crpow cP 1 [2] coptsOff2 ctimes 0 = none := by
  norm_num [BCLPNorm.construct, BCLPNorm.computeLoss,
    BCLPNorm.updateVariables, BCLPNorm.updateDose, BCLPNorm.updateMappedDose,
    BCLPNorm.updateErrT, BCLPNorm.updateErrB, BCLPNorm.updateV,
    BCLPNorm.callback, BCLPNorm.imposeSinogramConstraints,
    BCLPNorm.checkSinogramShape, LogPerf.init, LogPerf.startTiming,
    LogPerf.recordIterTime, copts, coptsOff2, crm, cP, cFilter, crpow, ctimes,
    qsign, emul, esub, indMul, amax, ndSmul, ndSub, discretize, List.replicate]
  exact fun h => nomatch h

theorem cRunOff2_eval :
    minimizeBCLP crpow cP 1 [2] coptsOff2 ctimes 0 = none := by
  have h1 : minimizeBCLP crpow cP 1 [2] coptsOff2 ctimes 0 =
    match BCLPNorm.construct crpow cP 1 [2] coptsOff2 ctimes 0 with
    | none => none
    | some bclp =>
      match bclp.gradientDescent crpow ctimes with
      | none => none
      | some (b2, g_opt) =>
        some (b2.checkSinogramShape g_opt .flattened, b2.dose, b2.logs) := rfl
  rw [h1, cConstructOff2_eval]

/-- C1: refuted on a concrete run.  With one iteration, identity response
model, halving pre-filter, p = q = 1, eps = 0, learning rate 1/2, the run
records loss 1 at iteration index 1, although the loss of the
constraint-projected sinogram produced by steps 2-3 of that iteration
(the final sinogram, value 3/2) is 1/2 under the run's own configuration:
computeLoss reused the cache filled by the gradient call earlier in the
same iteration, so every cached quantity still reflects the pre-step
sinogram. -/
theorem computeLoss_after_step_records_stale_loss :
    cRun.map (fun r => (r.1, r.2.2.loss)) = some (⟨[1], [3/2]⟩, [some 1, some 1]) ∧
    cConstruct = some cS1 ∧ specLoss crpow cS1 ⟨[1], [3/2]⟩ = 1/2 := by
  refine ⟨?_, cConstruct_eval, ?_⟩
  · rw [cRun_eval]; rfl
  · norm_num [specLoss, specDose, BCLPNorm.checkSinogramShape, cS1, crm, cP,
      crpow, emul, esub, indMul, qsign]

/-- C2: refuted on the same concrete run.  The run returns the final
sinogram with data 3/2 but the dose array 1, while the back-projection of
the returned sinogram scaled by one over n_angles is 3/2: the returned
dose is the one cached at the last gradient evaluation, which used the
sinogram entering the final iteration, not the returned one. -/
theorem returned_dose_not_of_final_sinogram :
    cRun.map (fun r => (r.1, r.2.1)) = some (⟨[1], [3/2]⟩, [1]) ∧
    cConstruct = some cS1 ∧ specDose cS1 ⟨[1], [3/2]⟩ = [3/2] := by
  refine ⟨?_, cConstruct_eval, ?_⟩
  · rw [cRun_eval]; rfl
  · norm_num [specDose, BCLPNorm.checkSinogramShape, cS1, cP]

/-- C3: refuted on the same concrete run.  The native shape recorded at
construction is [1, 1], yet the returned sinogram has the flattened shape
[1]: the final checkSinogramShape call uses its default desired shape,
which is flattened, so no reshape to the native form happens. -/
theorem returned_sinogram_stays_flattened :
    cRun.map (fun r => r.1.shape) = some [1] ∧
    cConstruct = some cS1 ∧ cS1.g0_shape = [1, 1] := by
  exact ⟨by rw [cRun_eval]; rfl, cConstruct_eval, rfl⟩

/-- C4: refuted on concrete runs.  With verbose off or time the very
first callback dereferences the missing live-plot attribute and the whole
optimization aborts (AttributeError), while the identical configuration
with verbose plot completes: the optimizer does not function without the
visualizer attached, and no callback of a non-plot run ever completes. -/
theorem callback_crashes_without_live_plot :
    minimizeBCLP crpow cP 1 [2] { copts with verbose := Verbose.off } ctimes 0 = none ∧
    minimizeBCLP crpow cP 1 [2] { copts with verbose := Verbose.time } ctimes 0 = none ∧
    cRun.isSome = true := by
  exact ⟨cRunOff_eval, cRunTime_eval, by rw [cRun_eval]; rfl⟩

/-- C5: refuted on a concrete log.  For n_iter = 1, the iteration-times
array is allocated pre-filled with zeros, not with the NaN unset marker,
and the start-timestamp field t0 is NaN after construction: the timestamp
is only recorded by the separate startTiming call. -/
theorem logperf_iter_times_zero_filled :
    (LogPerf.init copts).iter_times = [some 0, some 0] ∧
    (LogPerf.init copts).t0 = none := by
  exact ⟨rfl, rfl⟩

/-- C5 amended: constructing the performance log allocates the loss, the
eight error-norm arrays, and the convergence-error array with length
n_iter + 1 pre-filled with the NaN unset marker; the iteration-times
array also has length n_iter + 1 but is pre-filled with zeros; the
start-timestamp field is NaN after construction, and the start timestamp
is recorded by the separate startTiming call (which the optimizer invokes
immediately after constructing the log). -/
theorem logperf_init_spec (opts : Options) (t : ℚ) :
    (LogPerf.init opts).loss.length = opts.n_iter + 1 ∧
    (LogPerf.init opts).loss = List.replicate (opts.n_iter + 1) none ∧
    (LogPerf.init opts).l0_v = List.replicate (opts.n_iter + 1) none ∧
    (LogPerf.init opts).l1_v = List.replicate (opts.n_iter + 1) none ∧
    (LogPerf.init opts).l2_v = List.replicate (opts.n_iter + 1) none ∧
    (LogPerf.init opts).lf_v = List.replicate (opts.n_iter + 1) none ∧
    (LogPerf.init opts).l0_all = List.replicate (opts.n_iter + 1) none ∧
    (LogPerf.init opts).l1_all = List.replicate (opts.n_iter + 1) none ∧
    (LogPerf.init opts).l2_all = List.replicate (opts.n_iter + 1) none ∧
    (LogPerf.init opts).lf_all = List.replicate (opts.n_iter + 1) none ∧
    (LogPerf.init opts).ver = List.replicate (opts.n_iter + 1) none ∧
    (LogPerf.init opts).iter_times = List.replicate (opts.n_iter + 1) (some 0) ∧
    (LogPerf.init opts).iter_times.length = opts.n_iter + 1 ∧
    (LogPerf.init opts).t0 = none ∧
    ((LogPerf.init opts).startTiming t).t0 = some t ∧
    (LogPerf.init opts).curr_iter = 0 := by
  refine ⟨List.length_replicate _ _, rfl, rfl, rfl, rfl, rfl, rfl, rfl, rfl, rfl,
    rfl, rfl, List.length_replicate _ _, rfl, rfl, rfl⟩

/-- C8: refuted on a concrete run with valid options.  With the valid
configuration coptsOff2 (iteration budget 2, verbose off) the run aborts
during construction at the iteration-0 callback, so no performance log
with a populated slot 0 is produced and the loop performs no transition
at all, let alone n_iter of them. -/
theorem run_with_valid_options_aborts :
    minimizeBCLP crpow cP 1 [2] coptsOff2 ctimes 0 = none :=
  cRunOff2_eval

theorem callback_props (s : BCLPNorm) (g : NDArray) (times : ℕ → ℚ)
    (h : s.hasDP = true) :
    ∃ s3, s.callback g times = some s3 ∧
      s3.logs.curr_iter = s.logs.curr_iter + 1 ∧
      s3.logs.loss = s.logs.loss ∧
      s3.logs.options = s.logs.options ∧
      s3.hasDP = s.hasDP := by
  refine ⟨{ s with
      logs := { s.logs.recordIterTime (times s.logs.curr_iter) with
                curr_iter := s.logs.curr_iter + 1 }
      dp_updates := s.dp_updates + 1 }, ?_, rfl, rfl, rfl, rfl⟩
  unfold BCLPNorm.callback
  rw [if_pos h]
  rfl

theorem computeLossGradient_isSome (rpow : ℚ → ℚ → ℚ) (s : BCLPNorm) (g : NDArray)
    (x : ℚ)
    (hx : pyGet s.logs.loss ((s.logs.curr_iter : ℤ) - 1) = some (some x)) :
    ∃ s1 gr, s.computeLossGradient rpow g = some (s1, gr) ∧
      s1.logs = s.logs ∧ s1.hasDP = s.hasDP := by
  unfold BCLPNorm.computeLossGradient
  simp only [updateVariables_logs, hx]
  exact ⟨_, _, rfl, updateVariables_logs s g, updateVariables_hasDP s g⟩

theorem inv_pyGet (n k : ℕ) (s : BCLPNorm) (hInv : Inv n k s) :
    ∃ x, pyGet s.logs.loss ((s.logs.curr_iter : ℤ) - 1) = some (some x) := by
  obtain ⟨hc, hdp, hopt, hlen, hslots⟩ := hInv
  obtain ⟨x, hx⟩ := hslots k (le_refl k)
  refine ⟨x, ?_⟩
  rw [hc]
  unfold pyGet
  have h1 : ((k + 1 : ℕ) : ℤ) - 1 = (k : ℤ) := by push_cast; ring
  rw [h1]
  have h2 : (0 : ℤ) ≤ (k : ℤ) := Int.natCast_nonneg k
  rw [if_pos h2, if_pos h2, Int.toNat_natCast]
  exact hx

theorem step_preserves_inv (rpow : ℚ → ℚ → ℚ) (times : ℕ → ℚ) (n k : ℕ)
    (s : BCLPNorm) (g : NDArray) (hk : k < n) (hInv : Inv n k s) :
    ∃ s4 g2, gradientDescentStep rpow times (s, g) = some (s4, g2) ∧
      Inv n (k + 1) s4 := by
  obtain ⟨x0, hx0⟩ := inv_pyGet n k s hInv
  obtain ⟨hc, hdp, hopt, hlen, hslots⟩ := hInv
  obtain ⟨s1, gr, hgrad, hs1logs, hs1dp⟩ := computeLossGradient_isSome rpow s g x0 hx0
  have hstep : gradientDescentStep rpow times (s, g) =
      (((s1.computeLoss rpow (s1.imposeSinogramConstraints
          (ndSub g (ndSmul s1.learning_rate gr)))).1.callback
        (s1.imposeSinogramConstraints (ndSub g (ndSmul s1.learning_rate gr))) times).map
        (fun s3 => (s3, s1.imposeSinogramConstraints
          (ndSub g (ndSmul s1.learning_rate gr))))) := by
    show (match s.computeLossGradient rpow g with
      | none => none
      | some (s1, grad) =>
        let g1 := ndSub g (ndSmul s1.learning_rate grad)
        let g2 := s1.imposeSinogramConstraints g1
        let s2 := (s1.computeLoss rpow g2).1
        (s2.callback g2 times).map (fun s3 => (s3, g2))) = _
    rw [hgrad]
  set g2 := s1.imposeSinogramConstraints (ndSub g (ndSmul s1.learning_rate gr)) with hg2
  have hXlogs := computeLoss_logs rpow s1 g2
  have hXdp := computeLoss_hasDP rpow s1 g2
  have hXdpt : ((s1.computeLoss rpow g2).1).hasDP = true := by
    rw [hXdp, hs1dp, hdp]
  obtain ⟨s3, hcb, hc3, hl3, hopt3, hdp3⟩ :=
    callback_props ((s1.computeLoss rpow g2).1) g2 times hXdpt
  refine ⟨s3, g2, ?_, ?_, ?_, ?_, ?_, ?_⟩
  · rw [hstep, hcb]
    rfl
  · rw [hc3, hXlogs]
    show s1.logs.curr_iter + 1 = k + 1 + 1
    rw [hs1logs, hc]
  · rw [hdp3, hXdpt]
  · rw [hopt3, hXlogs]
    show s1.logs.options.n_iter = n
    rw [hs1logs]
    exact hopt
  · rw [hl3, hXlogs]
    show (s1.logs.loss.set s1.logs.curr_iter _).length = n + 1
    rw [List.length_set, hs1logs]
    exact hlen
  · intro j hj
    rw [hl3, hXlogs]
    show ∃ y, (s1.logs.loss.set s1.logs.curr_iter _)[j]? = some (some y)
    rw [hs1logs, hc]
    rcases Nat.lt_or_ge j (k + 1) with hjk | hjk
    · obtain ⟨y, hy⟩ := hslots j (Nat.lt_succ_iff.mp hjk)
      refine ⟨y, ?_⟩
      rw [List.getElem?_set_ne (Nat.ne_of_gt hjk)]
      exact hy
    · have hj2 : j = k + 1 := Nat.le_antisymm hj hjk
      subst hj2
      refine ⟨_, List.getElem?_set_eq_of_lt _ ?_⟩
      rw [hlen]
      exact Nat.succ_lt_succ hk

theorem loop_preserves_inv (rpow : ℚ → ℚ → ℚ) (times : ℕ → ℚ) (n : ℕ) :
    ∀ (m k : ℕ) (s : BCLPNorm) (g : NDArray), k + m ≤ n → Inv n k s →
    ∃ s2 g2, gradientDescentLoop rpow times m (s, g) = some (s2, g2) ∧
      Inv n (k + m) s2 := by
  intro m
  induction m with
  | zero =>
    intro k s g hk hInv
    exact ⟨s, g, rfl, by simpa using hInv⟩
  | succ m ih =>
    intro k s g hkm hInv
    have hk : k < n := by omega
    obtain ⟨s4, g2, hstep, hInv4⟩ := step_preserves_inv rpow times n k s g hk hInv
    have hunf : gradientDescentLoop rpow times (m + 1) (s, g) =
        match gradientDescentStep rpow times (s, g) with
        | none => none
        | some sg2 => gradientDescentLoop rpow times m sg2 := rfl
    obtain ⟨s5, g5, hloop, hInv5⟩ := ih (k + 1) s4 g2 (by omega) hInv4
    refine ⟨s5, g5, ?_, ?_⟩
    · rw [hunf, hstep]
      exact hloop
    · have hkk : k + (m + 1) = k + 1 + m := by omega
      rw [hkk]
      exact hInv5

theorem construct_as_callback (rpow : ℚ → ℚ → ℚ) (P : Projector) (na : ℕ)
    (target : List ℚ) (opts : Options) (times : ℕ → ℚ) (t_s : ℚ) :
    ∃ sY : BCLPNorm, BCLPNorm.construct rpow P na target opts times t_s =
        ((sY.computeLoss rpow sY.g0).1.callback ((sY.computeLoss rpow sY.g0).1).g0 times) ∧
      sY.logs = (LogPerf.init opts).startTiming t_s ∧
      sY.hasDP = decide (opts.verbose = Verbose.plot) := by
  refine ⟨{ target := target
            tomogram_scale := 1 / (na : ℚ)
            logs := (LogPerf.init opts).startTiming t_s
            response_model := opts.response_model
            eps := opts.eps
            weight := opts.weight
            p := opts.p
            q := opts.q
            learning_rate := opts.learning_rate
            glb := opts.blb
            gub := opts.bub
            bit_depth := opts.bit_depth
            dvol := 1
            verbose := opts.verbose
            hasDP := decide (opts.verbose = Verbose.plot)
            dp_updates := 0
            P := P
            g0 := BCLPNorm.imposeSinogramConstraints
              { target := target
                tomogram_scale := 1 / (na : ℚ)
                logs := (LogPerf.init opts).startTiming t_s
                response_model := opts.response_model
                eps := opts.eps
                weight := opts.weight
                p := opts.p
                q := opts.q
                learning_rate := opts.learning_rate
                glb := opts.blb
                gub := opts.bub
                bit_depth := opts.bit_depth
                dvol := 1
                verbose := opts.verbose
                hasDP := decide (opts.verbose = Verbose.plot)
                dp_updates := 0
                P := P
                g0 := opts.filter (P.forward (opts.response_model.map_inv target))
                g0_shape := (P.forward (opts.response_model.map_inv target)).shape
                dose := []
                mapped_dose := []
                mapped_dose_error_from_f_T := []
                mapped_dose_error_from_band := []
                v := []
                dose_iter := -1
                mapped_dose_iter := -1
                mapped_dose_error_from_f_T_iter := -1
                mapped_dose_error_from_band_iter := -1
                v_iter := -1 }
              (opts.filter (P.forward (opts.response_model.map_inv target)))
            g0_shape := (P.forward (opts.response_model.map_inv target)).shape
            dose := []
            mapped_dose := []
            mapped_dose_error_from_f_T := []
            mapped_dose_error_from_band := []
            v := []
            dose_iter := -1
            mapped_dose_iter := -1
            mapped_dose_error_from_f_T_iter := -1
            mapped_dose_error_from_band_iter := -1
            v_iter := -1 }, ?_, rfl, rfl⟩
  rfl

theorem construct_plot (rpow : ℚ → ℚ → ℚ) (P : Projector) (na : ℕ)
    (target : List ℚ) (opts : Options) (times : ℕ → ℚ) (t_s : ℚ)
    (h : opts.verbose = Verbose.plot) :
    ∃ s0, BCLPNorm.construct rpow P na target opts times t_s = some s0 ∧
      Inv opts.n_iter 0 s0 := by
  obtain ⟨sY, hEq, hLogs, hDP⟩ := construct_as_callback rpow P na target opts times t_s
  have hDPt : sY.hasDP = true := by
    rw [hDP]
    exact decide_eq_true h
  have hXlogs := computeLoss_logs rpow sY sY.g0
  have hXdp := computeLoss_hasDP rpow sY sY.g0
  have hXdpt : ((sY.computeLoss rpow sY.g0).1).hasDP = true := hXdp.trans hDPt
  obtain ⟨s3, hcb, hc3, hl3, hopt3, hdp3⟩ :=
    callback_props ((sY.computeLoss rpow sY.g0).1) ((sY.computeLoss rpow sY.g0).1).g0
      times hXdpt
  refine ⟨s3, by rw [hEq, hcb], ?_, ?_, ?_, ?_, ?_⟩
  · rw [hc3, hXlogs]
    show sY.logs.curr_iter + 1 = 0 + 1
    rw [hLogs]
    rfl
  · rw [hdp3, hXdpt]
  · rw [hopt3, hXlogs]
    show sY.logs.options.n_iter = opts.n_iter
    rw [hLogs]
    rfl
  · rw [hl3, hXlogs]
    show (sY.logs.loss.set sY.logs.curr_iter _).length = opts.n_iter + 1
    rw [List.length_set, hLogs]
    show (List.replicate (opts.n_iter + 1) none).length = opts.n_iter + 1
    exact List.length_replicate _ _
  · intro j hj
    have hj0 : j = 0 := Nat.le_zero.mp hj
    subst hj0
    rw [hl3, hXlogs]
    show ∃ y, (sY.logs.loss.set sY.logs.curr_iter _)[0]? = some (some y)
    rw [hLogs]
    show ∃ y, ((List.replicate (opts.n_iter + 1) none).set 0 _)[0]? = some (some y)
    refine ⟨_, List.getElem?_set_eq_of_lt _ ?_⟩
    rw [List.length_replicate]
    exact Nat.succ_pos _

/-- C8 amended: for every configuration whose verbose mode is plot (the
only mode in which the per-iteration callback completes, see the
missing-visualizer defect), construction succeeds, the loss array has
length n_iter + 1 with slot 0 populated and the iteration counter at 1
before the loop begins, and the gradient-descent loop completes exactly
n_iter transitions, ending with iteration counter n_iter + 1 and the loss
array still of length n_iter + 1. -/
theorem run_with_plot_spec (rpow : ℚ → ℚ → ℚ) (P : Projector) (na : ℕ)
    (target : List ℚ) (opts : Options) (times : ℕ → ℚ) (t_s : ℚ)
    (h : opts.verbose = Verbose.plot) :
    ∃ s0, BCLPNorm.construct rpow P na target opts times t_s = some s0 ∧
      s0.logs.loss.length = opts.n_iter + 1 ∧
      (∃ x, s0.logs.loss[0]? = some (some x)) ∧
      s0.logs.curr_iter = 1 ∧
      ∃ s2 g2, s0.gradientDescent rpow times = some (s2, g2) ∧
        s2.logs.curr_iter = opts.n_iter + 1 ∧
        s2.logs.loss.length = opts.n_iter + 1 := by
  obtain ⟨s0, hcons, hInv⟩ := construct_plot rpow P na target opts times t_s h
  have hInv' := hInv
  obtain ⟨hc, hdp, hopt, hlen, hslots⟩ := hInv'
  obtain ⟨s2, g2, hloop, hInv2⟩ := loop_preserves_inv rpow times opts.n_iter
    opts.n_iter 0 s0 (s0.checkSinogramShape s0.g0 .flattened) (by omega) hInv
  obtain ⟨hc2, hdp2, hopt2, hlen2, hslots2⟩ := hInv2
  refine ⟨s0, hcons, hlen, hslots 0 (le_refl 0), by omega, s2, g2, ?_, ?_, hlen2⟩
  · unfold BCLPNorm.gradientDescent
    rw [hopt]
    exact hloop
  · omega

/-- C8 witness: the amended loop theorem applied to the concrete
plot-mode run. -/
theorem run_with_plot_spec_witness :
    ∃ s0, BCLPNorm.construct crpow cP 1 [2] copts ctimes 0 = some s0 ∧
      s0.logs.loss.length = copts.n_iter + 1 ∧
      (∃ x, s0.logs.loss[0]? = some (some x)) ∧
      s0.logs.curr_iter = 1 ∧
      ∃ s2 g2, s0.gradientDescent crpow ctimes = some (s2, g2) ∧
        s2.logs.curr_iter = copts.n_iter + 1 ∧
        s2.logs.loss.length = copts.n_iter + 1 :=
  run_with_plot_spec crpow cP 1 [2] copts ctimes 0 rfl

/-- C10: in every run that reaches the loop (verbose plot; in the other
modes construction raises before any loop gradient call), at the entry of
every loop iteration k the iteration index is k + 1, so at least 1, and
the previous-loss lookup of the gradient call reads the slot at the
nonnegative index currentIteration - 1 = k, which an earlier computeLoss
call populated; hence the lookup never reads an unset NaN slot and the
gradient call succeeds. -/
theorem previous_loss_lookup_safe (rpow : ℚ → ℚ → ℚ) (P : Projector) (na : ℕ)
    (target : List ℚ) (opts : Options) (times : ℕ → ℚ) (t_s : ℚ)
    (h : opts.verbose = Verbose.plot) (k : ℕ) (hk : k < opts.n_iter) :
    ∃ s0 sk gk, BCLPNorm.construct rpow P na target opts times t_s = some s0 ∧
      gradientDescentLoop rpow times k (s0, s0.checkSinogramShape s0.g0 .flattened)
        = some (sk, gk) ∧
      sk.logs.curr_iter = k + 1 ∧
      1 ≤ sk.logs.curr_iter ∧
      (∃ x, pyGet sk.logs.loss ((sk.logs.curr_iter : ℤ) - 1) = some (some x)) ∧
      (sk.computeLossGradient rpow gk).isSome = true := by
  obtain ⟨s0, hcons, hInv⟩ := construct_plot rpow P na target opts times t_s h
  obtain ⟨sk, gk, hloop, hInvk⟩ := loop_preserves_inv rpow times opts.n_iter
    k 0 s0 (s0.checkSinogramShape s0.g0 .flattened) (by omega) hInv
  have hInvk' : Inv opts.n_iter k sk := by simpa using hInvk
  obtain ⟨x, hx⟩ := inv_pyGet opts.n_iter k sk hInvk'
  obtain ⟨s1, gr, hgrad, _, _⟩ := computeLossGradient_isSome rpow sk gk x hx
  obtain ⟨hck, _, _, _, _⟩ := hInvk'
  refine ⟨s0, sk, gk, hcons, hloop, hck, ?_, ⟨x, hx⟩, ?_⟩
  · rw [hck]
    exact Nat.succ_le_succ (Nat.zero_le k)
  · rw [hgrad]
    rfl

/-- C10 witness: the lookup-safety theorem applied to the concrete
plot-mode run at its first loop iteration. -/
theorem previous_loss_lookup_safe_witness :
    ∃ s0 sk gk, BCLPNorm.construct crpow cP 1 [2] copts ctimes 0 = some s0 ∧
      gradientDescentLoop crpow ctimes 0 (s0, s0.checkSinogramShape s0.g0 .flattened)
        = some (sk, gk) ∧
      sk.logs.curr_iter = 0 + 1 ∧
      1 ≤ sk.logs.curr_iter ∧
      (∃ x, pyGet sk.logs.loss ((sk.logs.curr_iter : ℤ) - 1) = some (some x)) ∧
      (sk.computeLossGradient crpow gk).isSome = true :=
  previous_loss_lookup_safe crpow cP 1 [2] copts ctimes 0 rfl 0 (by decide)


/-- C5 amended witness: the log-construction theorem applied to the
concrete options and start time 0. -/
theorem logperf_init_spec_witness :
    (LogPerf.init copts).loss.length = copts.n_iter + 1 ∧
    (LogPerf.init copts).loss = List.replicate (copts.n_iter + 1) none ∧
    (LogPerf.init copts).l0_v = List.replicate (copts.n_iter + 1) none ∧
    (LogPerf.init copts).l1_v = List.replicate (copts.n_iter + 1) none ∧
    (LogPerf.init copts).l2_v = List.replicate (copts.n_iter + 1) none ∧
    (LogPerf.init copts).lf_v = List.replicate (copts.n_iter + 1) none ∧
    (LogPerf.init copts).l0_all = List.replicate (copts.n_iter + 1) none ∧
    (LogPerf.init copts).l1_all = List.replicate (copts.n_iter + 1) none ∧
    (LogPerf.init copts).l2_all = List.replicate (copts.n_iter + 1) none ∧
    (LogPerf.init copts).lf_all = List.replicate (copts.n_iter + 1) none ∧
    (LogPerf.init copts).ver = List.replicate (copts.n_iter + 1) none ∧
    (LogPerf.init copts).iter_times = List.replicate (copts.n_iter + 1) (some 0) ∧
    (LogPerf.init copts).iter_times.length = copts.n_iter + 1 ∧
    (LogPerf.init copts).t0 = none ∧
    ((LogPerf.init copts).startTiming 0).t0 = some 0 ∧
    (LogPerf.init copts).curr_iter = 0 :=
  logperf_init_spec copts 0

end BCLP
